import Mathlib

/-!
Shallow embedding of the monitoring pipeline of the Monitoring-Agent
repository (app/modules/monitoring), covering the scraper, the LinkedIn
driver manager, the change-detection / AI-escalation graph in agents.py,
the notification decision, the end-of-run persistence in monitor_target,
and the periodic scheduler in tasks.py.

Conventions of the embedding:
- Python dicts with a fixed key set are structures of Option fields; a
  missing key is none; dict truthiness is the negation of isEmpty.
- External effects (HTTP fetch, Selenium, Gemini, Mongo reads) are passed
  in as values: an Except String A is a call that either returned A or
  raised an exception with the given message.
- datetimes are Int seconds; the database is an explicit pair of lists.
-/

/-- Python truthiness of an optional string: None and the empty string are
falsy, every other string is truthy. -/
def pyTruthyStr (o : Option String) : Bool :=
  !(o.getD "").isEmpty

/-- The target types routed through the LinkedIn (session-backed) path,
as listed in agents.py line 321 and scraper.py lines 34-39. -/
def isSessionBacked (target_type : String) : Bool :=
  ["linkedin_profile", "linkedin_company"].contains target_type

/-- The dict returned by ScraperService.scrape_url and stored in
state["scraped_data"]: some subset of title / content / content_hash /
error keys. -/
structure ScrapedData where
  title : Option String
  content : Option String
  content_hash : Option String
  error : Option String
deriving DecidableEq, Repr

/-- The empty dict, as assigned on a scraper exception (agents.py line 76). -/
def ScrapedData.empty : ScrapedData :=
  { title := none, content := none, content_hash := none, error := none }

/-- Python truthiness: the dict is falsy iff it has no keys. -/
def ScrapedData.isEmpty (d : ScrapedData) : Bool :=
  d.title.isNone && d.content.isNone && d.content_hash.isNone && d.error.isNone

/-- The MonitoringTarget document as used by agents.py and tasks.py
(fields read or written by the pipeline). -/
structure Target where
  id : String
  user_id : String
  url : String
  target_type : String
  check_frequency : Int
  last_checked : Option Int
  last_content_hash : Option String
  latest_snapshot_id : Option String
  is_active : Bool
deriving DecidableEq, Repr

/-- User preference keys read by the notify node (agents.py lines 182-185);
a key absent from the preferences dict is none. -/
structure Preferences where
  email_notifications : Option Bool
  email_on_changes : Option Bool
  email_on_insights : Option Bool
  min_importance_score : Option Int
deriving DecidableEq, Repr

/-- The empty preferences dict. -/
def Preferences.empty : Preferences :=
  { email_notifications := none, email_on_changes := none,
    email_on_insights := none, min_importance_score := none }

/-- The User document fields used by the pipeline. -/
structure User where
  email : String
  full_name : String
  preferences : Preferences
deriving DecidableEq, Repr

/-- The placeholder user substituted when User.get finds nothing
(agents.py line 294); its preferences dict is explicitly empty. -/
def placeholderUser : User :=
  { email := "unknown@example.com", full_name := "Unknown User",
    preferences := Preferences.empty }

/-- The analyzer result dict: the keys the pipeline reads, plus a flag
recording whether the dict holds any further keys (so that Python dict
truthiness is represented exactly even for arbitrary parsed JSON). -/
structure AIAnalysis where
  has_changes : Option Bool
  change_summary : Option String
  importance_score : Option Int
  alert_priority : Option String
  error : Option String
  has_other_keys : Bool
deriving DecidableEq, Repr

/-- The empty analyzer dict. -/
def AIAnalysis.empty : AIAnalysis :=
  { has_changes := none, change_summary := none, importance_score := none,
    alert_priority := none, error := none, has_other_keys := false }

/-- Python truthiness of the analyzer dict. -/
def AIAnalysis.isEmpty (a : AIAnalysis) : Bool :=
  a.has_changes.isNone && a.change_summary.isNone && a.importance_score.isNone
    && a.alert_priority.isNone && a.error.isNone && !a.has_other_keys

/-- The dict assigned on an exception inside _ai_analysis_node
(agents.py line 167). -/
def AIAnalysis.errorDict (e : String) : AIAnalysis :=
  { AIAnalysis.empty with error := some e }

/-- The insights dict: keys the pipeline reads plus a further-keys flag. -/
structure AIInsights where
  current_role : Option String
  company : Option String
  key_skills : Option (List String)
  has_other_keys : Bool
deriving DecidableEq, Repr

/-- The empty insights dict. -/
def AIInsights.empty : AIInsights :=
  { current_role := none, company := none, key_skills := none,
    has_other_keys := false }

/-- Python truthiness of the insights dict. -/
def AIInsights.isEmpty (a : AIInsights) : Bool :=
  a.current_role.isNone && a.company.isNone && a.key_skills.isNone
    && !a.has_other_keys

/-- The Snapshot document inserted by monitor_target (agents.py 323-331). -/
structure Snapshot where
  id : String
  target_id : String
  user_id : String
  target_type : String
  url : String
  content : String
  content_hash : String
  previous_snapshot_id : Option String
deriving DecidableEq, Repr

/-- The ChangeDetection document written by monitor_target
(agents.py 342-351). -/
structure ChangeDetection where
  target_id : String
  user_id : String
  change_type : String
  summary : String
  before_snapshot : Option String
  after_snapshot : Option String
  notified : Bool
deriving DecidableEq, Repr

/-- The persistent stores the run writes to. -/
structure DB where
  snapshots : List Snapshot
  changes : List ChangeDetection
deriving DecidableEq, Repr

/-- The empty database. -/
def DB.empty : DB := { snapshots := [], changes := [] }

/-- The MonitoringState TypedDict threaded through the LangGraph nodes. -/
structure MonitoringState where
  target : Target
  scraped_data : ScrapedData
  has_changes : Bool
  change_summary : String
  ai_analysis : AIAnalysis
  ai_insights : AIInsights
  user : User
  error : Option String
deriving DecidableEq, Repr

/-- Which emails the notify node attempted to send. -/
structure NotifyOutcome where
  change_email_attempted : Bool
  insights_email_attempted : Bool
deriving DecidableEq, Repr

/-- Hash-based classification of a run, following the branch structure of
_analyze_node (agents.py lines 85-111): skipped on error or empty data,
first_seen when the target has no previous hash, unchanged when the
fetched hash equals the stored one, changed otherwise. -/
inductive Classification where
  | skipped
  | first_seen
  | unchanged
  | changed
deriving DecidableEq, Repr

/-- Classification of a scraped result against a target. -/
def classify (t : Target) (err : Option String) (d : ScrapedData) :
    Classification :=
  if pyTruthyStr err || d.isEmpty then Classification.skipped
  else
    match t.last_content_hash with
    | none => Classification.first_seen
    | some p =>
        if d.content_hash = some p then Classification.unchanged
        else Classification.changed

/-- The scrape node (agents.py lines 52-78): a fetch that returns a dict
stores it and copies its error key into the state; a fetch that raises
stores the exception message and an empty dict. -/
def scrapeNode (fetchResult : Except String ScrapedData)
    (s : MonitoringState) : MonitoringState :=
  match fetchResult with
  | Except.ok d => { s with scraped_data := d, error := d.error }
  | Except.error e =>
      { s with error := some e, scraped_data := ScrapedData.empty }

/-- The basic-analysis node (agents.py lines 80-115): sets has_changes and
change_summary from the hash comparison, and resets both AI dicts. -/
def analyzeNode (s : MonitoringState) : MonitoringState :=
  if pyTruthyStr s.error || s.scraped_data.isEmpty then
    { s with has_changes := false, ai_analysis := AIAnalysis.empty,
             ai_insights := AIInsights.empty }
  else
    match s.target.last_content_hash with
    | none =>
        { s with has_changes := false,
                 change_summary := "Initial snapshot - getting AI insights",
                 ai_analysis := AIAnalysis.empty,
                 ai_insights := AIInsights.empty }
    | some p =>
        if s.scraped_data.content_hash = some p then
          { s with has_changes := false,
                   change_summary := "No changes detected",
                   ai_analysis := AIAnalysis.empty,
                   ai_insights := AIInsights.empty }
        else
          { s with has_changes := true,
                   change_summary := "Content changes detected",
                   ai_analysis := AIAnalysis.empty,
                   ai_insights := AIInsights.empty }

/-- The fallback dict returned when the Gemini call or its JSON parse
raises inside _analyze_linkedin_changes (ai_service.py lines 79-90). -/
def linkedinFallback (e : String) : AIAnalysis :=
  { has_changes := some false,
    change_summary := some ("AI analysis failed: " ++ e),
    importance_score := some 1,
    alert_priority := some "low",
    error := none,
    has_other_keys := true }

/-- The fallback dict returned when the Gemini call or its JSON parse
raises inside _analyze_website_changes (ai_service.py lines 119-128). -/
def websiteFallback (e : String) : AIAnalysis :=
  { has_changes := some false,
    change_summary := some ("AI analysis failed: " ++ e),
    importance_score := some 1,
    alert_priority := some "low",
    error := none,
    has_other_keys := true }

/-- GeminiAnalysisService.analyze_changes (ai_service.py lines 25-128):
dispatches on target type; each branch returns the provider's parsed
response, or the branch's fallback dict when the provider call raised.
The provider call (prompt construction, generate_content, json.loads) is
passed in as its outcome. -/
def analyze_changes (provider : Except String AIAnalysis)
    (target_type : String) : AIAnalysis :=
  if isSessionBacked target_type then
    match provider with
    | Except.ok r => r
    | Except.error e => linkedinFallback e
  else
    match provider with
    | Except.ok r => r
    | Except.error e => websiteFallback e

/-- GeminiAnalysisService.extract_profile_insights (ai_service.py lines
183-218): empty for non-LinkedIn types; otherwise the provider's parsed
response, or empty when the provider call raised. -/
def extract_profile_insights (provider : Except String AIInsights)
    (target_type : String) : AIInsights :=
  if isSessionBacked target_type then
    match provider with
    | Except.ok r => r
    | Except.error _ => AIInsights.empty
  else AIInsights.empty

/-- The AI-analysis node (agents.py lines 117-171). snapshotGet is the
outcome of the awaited Snapshot.get of the target's latest snapshot; if
that read raises, the node's except block stores an error dict and empty
insights. On the change branch the analyzer may override has_changes and
change_summary via dict get with the current value as default. -/
def aiAnalysisNode (snapshotGet : Except String (Option Snapshot))
    (providerChange : Except String AIAnalysis)
    (providerInsights : Except String AIInsights)
    (s : MonitoringState) : MonitoringState :=
  if pyTruthyStr s.error || s.scraped_data.isEmpty then
    { s with ai_analysis := AIAnalysis.empty, ai_insights := AIInsights.empty }
  else if s.has_changes && pyTruthyStr s.target.last_content_hash then
    match
      (if pyTruthyStr s.target.latest_snapshot_id then snapshotGet
       else Except.ok none) with
    | Except.error e =>
        { s with ai_analysis := AIAnalysis.errorDict e,
                 ai_insights := AIInsights.empty }
    | Except.ok _previous =>
        let ai := analyze_changes providerChange s.target.target_type
        { s with ai_analysis := ai,
                 has_changes := ai.has_changes.getD s.has_changes,
                 change_summary := ai.change_summary.getD s.change_summary }
  else
    { s with ai_insights :=
        extract_profile_insights providerInsights s.target.target_type }

/-- The email decisions of the notify node (agents.py lines 173-279).
Preference keys absent from the user's dict take the literal defaults of
lines 182-185. A change email is attempted only in the branch where
has_changes holds and the analyzer dict is non-empty, and only when the
enable flags hold and the importance score reaches the threshold; an
insights email is attempted only in the insights branch when enabled. -/
def notifyDecision (s : MonitoringState) : NotifyOutcome :=
  let prefs := s.user.preferences
  let enabled := prefs.email_notifications.getD true
  let onChanges := prefs.email_on_changes.getD true
  let onInsights := prefs.email_on_insights.getD true
  let minImp := prefs.min_importance_score.getD 5
  if s.has_changes && !s.ai_analysis.isEmpty then
    { change_email_attempted :=
        enabled && onChanges
          && decide (minImp ≤ s.ai_analysis.importance_score.getD 0),
      insights_email_attempted := false }
  else if s.has_changes then
    { change_email_attempted := false, insights_email_attempted := false }
  else if !s.ai_insights.isEmpty then
    { change_email_attempted := false,
      insights_email_attempted := enabled && onInsights }
  else
    { change_email_attempted := false, insights_email_attempted := false }

/-- The compiled graph scrape -> analyze -> ai_analysis -> notify applied
to the initial state built in monitor_target (agents.py lines 296-308);
the notify node leaves the state unchanged, so the run yields the state
after the AI node together with the notify decisions. -/
def runGraph (t : Target) (user : User)
    (fetchResult : Except String ScrapedData)
    (snapshotGet : Except String (Option Snapshot))
    (providerChange : Except String AIAnalysis)
    (providerInsights : Except String AIInsights) :
    MonitoringState × NotifyOutcome :=
  let s0 : MonitoringState :=
    { target := t, scraped_data := ScrapedData.empty, has_changes := false,
      change_summary := "", ai_analysis := AIAnalysis.empty,
      ai_insights := AIInsights.empty, user := user, error := none }
  let s3 := aiAnalysisNode snapshotGet providerChange providerInsights
    (analyzeNode (scrapeNode fetchResult s0))
  (s3, notifyDecision s3)

/-- The result of one monitor_target run: the updated target, the updated
stores, the final graph state and the notify decisions. -/
structure RunResult where
  target : Target
  db : DB
  state : MonitoringState
  notify : NotifyOutcome
deriving DecidableEq, Repr

/-- MonitoringAgents.monitor_target (agents.py lines 284-357). userOpt is
the awaited User.get; now is the utcnow of line 318; freshId is the id
Mongo assigns to the inserted snapshot. When the graph result holds a
non-empty scraped dict the target's hash is overwritten with the dict's
content_hash key and last_checked is set; for session-backed types a
snapshot is always inserted and latest_snapshot_id updated; when the
result has has_changes a ChangeDetection is written whose before_snapshot
reads latest_snapshot_id after that update and whose notified is True. -/
def monitor_target (t : Target) (userOpt : Option User)
    (fetchResult : Except String ScrapedData)
    (snapshotGet : Except String (Option Snapshot))
    (providerChange : Except String AIAnalysis)
    (providerInsights : Except String AIInsights)
    (db : DB) (now : Int) (freshId : String) : RunResult :=
  let user := userOpt.getD placeholderUser
  let r := runGraph t user fetchResult snapshotGet providerChange
    providerInsights
  let s := r.1
  if s.scraped_data.isEmpty then
    { target := t, db := db, state := s, notify := r.2 }
  else
    let t1 := { t with last_content_hash := s.scraped_data.content_hash,
                       last_checked := some now }
    let step : Target × DB × Option String :=
      if isSessionBacked t.target_type then
        let snap : Snapshot :=
          { id := freshId, target_id := t.id, user_id := t.user_id,
            target_type := t.target_type, url := t.url,
            content := s.scraped_data.content.getD "",
            content_hash := s.scraped_data.content_hash.getD "",
            previous_snapshot_id := t.latest_snapshot_id }
        ({ t1 with latest_snapshot_id := some freshId },
         { db with snapshots := db.snapshots ++ [snap] }, some freshId)
      else (t1, db, none)
    let t2 := step.1
    let db1 := step.2.1
    let snapshotId := step.2.2
    if s.has_changes then
      let change : ChangeDetection :=
        { target_id := t.id, user_id := t.user_id,
          change_type := "content_update", summary := s.change_summary,
          before_snapshot := t2.latest_snapshot_id,
          after_snapshot := snapshotId, notified := true }
      { target := t2, db := { db1 with changes := db1.changes ++ [change] },
        state := s, notify := r.2 }
    else
      { target := t2, db := db1, state := s, notify := r.2 }

/-- The due check inside _check_all_targets_async (tasks.py lines 26-30):
the target is checked when last_checked is None or the elapsed seconds
reach check_frequency. -/
def isDue (now : Int) (t : Target) : Bool :=
  match t.last_checked with
  | none => true
  | some lc => decide (t.check_frequency ≤ now - lc)

/-- The selection of _check_all_targets_async (tasks.py lines 17-38): the
find restricts to is_active targets and the loop body runs exactly on the
due ones. -/
def check_all_targets (now : Int) (targets : List Target) : List Target :=
  (targets.filter (fun t => t.is_active)).filter (fun t => isDue now t)

/-- Python slicing text with a character bound, as in text with index up
to 10000 (scraper.py line 112). -/
def pyTruncate (s : String) (n : Nat) : String :=
  String.mk (s.data.take n)

/-- ScraperService._extract_website_content (scraper.py lines 88-118)
after DOM stripping: given the page title and the extracted visible text,
the returned dict stores the text cut at 10,000 characters under content
but hashes the full text; _hash_content (line 120-121) is the external
md5 digest, passed in as a function. -/
def extract_website_content (md5 : String → String)
    (title text : String) : ScrapedData :=
  { title := some title,
    content := some (pyTruncate text 10000),
    content_hash := some (md5 text),
    error := none }

/-- An opaque handle for a Selenium Chrome driver. -/
structure Driver where
  handle : Nat
deriving DecidableEq, Repr

/-- LinkedInDriverManager.get_driver (linkedin_service.py lines 34-65):
the loop plans max_retries = 3 attempts; each attempt (create or reuse the
driver, authenticate, probe current_url) is passed in as its outcome. A
successful attempt returns its driver; a failed non-final attempt sleeps
2 seconds and retries; a failed final attempt re-raises its own
exception. The second component lists the sleeps performed. -/
def get_driver (o1 o2 o3 : Except String Driver) :
    Except String Driver × List Nat :=
  match o1 with
  | Except.ok d => (Except.ok d, [])
  | Except.error _ =>
      match o2 with
      | Except.ok d => (Except.ok d, [2])
      | Except.error _ =>
          match o3 with
          | Except.ok d => (Except.ok d, [2, 2])
          | Except.error e => (Except.error e, [2, 2])

/-- LinkedInService.scrape_profile (linkedin_service.py lines 164-204):
two attempts, each being get_driver followed by Person.scrape and
stringification, any exception caught; a successful attempt returns the
success dict; when both fail the second attempt's message is wrapped into
an error dict with empty content and empty hash. -/
def scrape_profile (md5 : String → String)
    (a1 a2 : Except String String) (url : String) : ScrapedData :=
  match a1 with
  | Except.ok s =>
      { title := some ("LinkedIn Profile - " ++ url),
        content := some s, content_hash := some (md5 s), error := none }
  | Except.error _ =>
      match a2 with
      | Except.ok s =>
          { title := some ("LinkedIn Profile - " ++ url),
            content := some s, content_hash := some (md5 s), error := none }
      | Except.error e =>
          { title := none, content := some "", content_hash := some "",
            error := some ("LinkedIn profile scraping failed: " ++ e) }

/-- One monitoring cycle viewed as a transformer of the target and the
stores, with the externals fixed: the projection of monitor_target used
to chain consecutive cycles. -/
def runCycle (userOpt : Option User) (fetchResult : Except String ScrapedData)
    (snapshotGet : Except String (Option Snapshot))
    (providerChange : Except String AIAnalysis)
    (providerInsights : Except String AIInsights) (freshId : String)
    (td : Target × DB) (now : Int) : Target × DB :=
  let r := monitor_target td.1 userOpt fetchResult snapshotGet providerChange
    providerInsights td.2 now freshId
  (r.target, r.db)

/-- N consecutive monitoring cycles at the given times, with the
externals fixed across cycles. -/
def runCycles (userOpt : Option User)
    (fetchResult : Except String ScrapedData)
    (snapshotGet : Except String (Option Snapshot))
    (providerChange : Except String AIAnalysis)
    (providerInsights : Except String AIInsights) (freshId : String) :
    Target × DB → List Int → Target × DB
  | td, [] => td
  | td, now :: rest =>
      runCycles userOpt fetchResult snapshotGet providerChange
        providerInsights freshId
        (runCycle userOpt fetchResult snapshotGet providerChange
          providerInsights freshId td now) rest

/-- The last_checked value after running cycles at the given times. -/
def finalChecked (lc : Option Int) : List Int → Option Int
  | [] => lc
  | now :: rest => finalChecked (some now) rest

/-- Decidable equality for modelled call outcomes. -/
instance {ε α : Type} [DecidableEq ε] [DecidableEq α] :
    DecidableEq (Except ε α) := fun a b =>
  match a, b with
  | Except.ok x, Except.ok y => decidable_of_iff (x = y) (by simp)
  | Except.error x, Except.error y => decidable_of_iff (x = y) (by simp)
  | Except.ok _, Except.error _ => isFalse (fun h => Except.noConfusion h)
  | Except.error _, Except.ok _ => isFalse (fun h => Except.noConfusion h)

/-- A user whose preferences dict is empty, so every preference read
falls back to its literal default. -/
def sampleUser : User :=
  { email := "owner@example.com", full_name := "Owner",
    preferences := Preferences.empty }

/-- A session-backed target that already has a stored content hash. -/
def linkedinTarget : Target :=
  { id := "t1", user_id := "u1", url := "https://www.linkedin.com/in/x",
    target_type := "linkedin_profile", check_frequency := 3600,
    last_checked := none, last_content_hash := some "h",
    latest_snapshot_id := none, is_active := true }

/-- A generic-web target that already has a stored content hash. -/
def websiteTarget : Target :=
  { id := "t2", user_id := "u1", url := "https://example.com",
    target_type := "website", check_frequency := 3600,
    last_checked := some 0, last_content_hash := some "old",
    latest_snapshot_id := none, is_active := true }

/-- A successful fetch whose hash equals the stored hash of
linkedinTarget, so the run classifies unchanged. -/
def unchangedFetch : ScrapedData :=
  { title := some "LinkedIn Profile - x", content := some "profile text",
    content_hash := some "h", error := none }

/-- The run of monitor_target on linkedinTarget with the unchanged fetch
(the AI provider calls fail, so no insights are produced either). -/
def c1run : RunResult :=
  monitor_target linkedinTarget (some sampleUser) (Except.ok unchangedFetch)
    (Except.ok none) (Except.error "ai down") (Except.error "ai down")
    DB.empty 100 "s1"

/-- A successful fetch whose hash differs from the stored hash of
websiteTarget, so the run classifies changed. -/
def changedFetch : ScrapedData :=
  { title := some "Example Domain", content := some "new text",
    content_hash := some "new", error := none }

/-- An analyzer response confirming the change with importance 3, below
the default threshold of 5. -/
def lowImportanceAnalysis : AIAnalysis :=
  { has_changes := some true, change_summary := some "Copy updated",
    importance_score := some 3, alert_priority := some "low",
    error := none, has_other_keys := true }

/-- The run of monitor_target on websiteTarget with a confirmed change of
importance 3 against the default threshold 5. -/
def c2run : RunResult :=
  monitor_target websiteTarget (some sampleUser) (Except.ok changedFetch)
    (Except.ok none) (Except.ok lowImportanceAnalysis) (Except.error "n/a")
    DB.empty 100 "s1"

/-- The error dict _scrape_regular_website returns when the HTTP request
or the parse raises (scraper.py line 86): only an error key and an empty
content key, no content_hash key. -/
def websiteErrorFetch : ScrapedData :=
  { title := none, content := some "",
    content_hash := none, error := some "HTTPSConnectionPool: timeout" }

/-- The error dict LinkedInService.scrape_profile returns after both
attempts fail (linkedin_service.py lines 200-204): error, empty content
and an empty-string content_hash key. -/
def linkedinErrorFetch : ScrapedData :=
  { title := none, content := some "", content_hash := some "",
    error := some "LinkedIn profile scraping failed: no driver" }

/-- The run of monitor_target on websiteTarget when the fetcher returned
the error dict. -/
def c3runWebsite : RunResult :=
  monitor_target websiteTarget (some sampleUser)
    (Except.ok websiteErrorFetch) (Except.ok none) (Except.error "n/a")
    (Except.error "n/a") DB.empty 300 "s9"

/-- The run of monitor_target on linkedinTarget when the fetcher returned
the error dict. -/
def c3runLinkedin : RunResult :=
  monitor_target linkedinTarget (some sampleUser)
    (Except.ok linkedinErrorFetch) (Except.ok none) (Except.error "n/a")
    (Except.error "n/a") DB.empty 300 "s9"

/-- A session-backed target that already has a snapshot chain: its latest
snapshot is s0. -/
def linkedinTargetWithSnap : Target :=
  { linkedinTarget with last_content_hash := some "h0",
                        latest_snapshot_id := some "s0" }

/-- A successful session-backed fetch with a new hash. -/
def linkedinChangedFetch : ScrapedData :=
  { title := some "LinkedIn Profile - x", content := some "new profile",
    content_hash := some "h1", error := none }

/-- An analyzer response confirming an important change. -/
def importantAnalysis : AIAnalysis :=
  { has_changes := some true, change_summary := some "Role changed",
    importance_score := some 8, alert_priority := some "high",
    error := none, has_other_keys := true }

/-- The run of monitor_target on linkedinTargetWithSnap with a confirmed
change; the freshly inserted snapshot gets id s1. -/
def c5run : RunResult :=
  monitor_target linkedinTargetWithSnap (some sampleUser)
    (Except.ok linkedinChangedFetch) (Except.ok none)
    (Except.ok importantAnalysis) (Except.error "n/a") DB.empty 200 "s1"

/-- A concrete stand-in digest (deterministic function of the text) used
to exhibit which text the extraction feeds into the hash. -/
def lengthParityHash (s : String) : String :=
  if s.data.length % 2 = 0 then "even" else "odd"

/-- A visible text one character longer than the 10,000-character cap. -/
def longText : String :=
  String.mk (List.replicate 10001 'a')

/-- The extraction of the long text with the stand-in digest. -/
def c4extract : ScrapedData :=
  extract_website_content lengthParityHash "Example Domain" longText

/-- The scheduling example target A: active, 60s interval, last checked
61 seconds before the reference time 100. -/
def targetA : Target :=
  { websiteTarget with id := "A", check_frequency := 60,
                       last_checked := some 39, is_active := true }

/-- The scheduling example target B: same interval, last checked 30
seconds before the reference time 100. -/
def targetB : Target :=
  { websiteTarget with id := "B", check_frequency := 60,
                       last_checked := some 70, is_active := true }

/-- The scheduling example target C: inactive. -/
def targetC : Target :=
  { websiteTarget with id := "C", check_frequency := 60,
                       last_checked := none, is_active := false }

/-- The preferences dict holding every key at the literal default the
notify node uses for an absent key (agents.py lines 182-185). -/
def explicitDefaultPreferences : Preferences :=
  { email_notifications := some true, email_on_changes := some true,
    email_on_insights := some true, min_importance_score := some 5 }

/-- C1, counterexample. The claim says an UNCHANGED run writes no
Snapshot and updates nothing but last_checked; on a session-backed target
the code inserts a snapshot on every run with scraped data, so an
unchanged cycle grows the snapshot store and rewrites
latest_snapshot_id. -/
theorem unchanged_linkedin_run_writes_snapshot :
    classify linkedinTarget unchangedFetch.error unchangedFetch
        = Classification.unchanged
    ∧ c1run.db.snapshots.length = 1
    ∧ c1run.target.latest_snapshot_id = some "s1"
    ∧ linkedinTarget.latest_snapshot_id = none := by
  decide

/-- C2, counterexample. On a CHANGED run with analyzer has_changes true
and importance 3 below the default threshold 5, no email is attempted but
the ChangeDetection record is written with notified hardcoded to True,
not False as the claim states. -/
theorem suppressed_change_record_notified_true :
    c2run.db.changes.map ChangeDetection.notified = [true]
    ∧ c2run.notify.change_email_attempted = false
    ∧ c2run.db.changes.map ChangeDetection.notified ≠ [false] := by
  decide

/-- C3, code evaluated at the failing input. When the fetcher returns an
error value, last_checked still advances, but the stored hash is not left
unchanged: the persistence path runs on the truthy error dict, so a
website target's hash is overwritten with None, and a session-backed
target additionally gets an empty snapshot inserted, its hash set to the
empty string and its latest_snapshot_id rewritten. -/
theorem fetch_error_run_clobbers_hash :
    c3runWebsite.target.last_checked = some 300
    ∧ websiteTarget.last_content_hash = some "old"
    ∧ c3runWebsite.target.last_content_hash = none
    ∧ c3runWebsite.db = DB.empty
    ∧ c3runLinkedin.target.last_checked = some 300
    ∧ c3runLinkedin.target.last_content_hash = some ""
    ∧ c3runLinkedin.target.latest_snapshot_id = some "s9"
    ∧ c3runLinkedin.db.snapshots.map Snapshot.content = [""] := by
  decide

/-- C5, code evaluated at the failing input. On a CHANGED session-backed
run the new snapshot correctly links previous_snapshot_id to the pre-run
latest snapshot s0, but the ChangeDetection record is built after
latest_snapshot_id was overwritten, so its before_snapshot equals its
after_snapshot (both the new id s1) instead of the pre-run s0. -/
theorem changed_run_change_record_before_equals_after :
    c5run.db.changes.map (fun c => (c.before_snapshot, c.after_snapshot))
        = [(some "s1", some "s1")]
    ∧ linkedinTargetWithSnap.latest_snapshot_id = some "s0"
    ∧ c5run.db.snapshots.map Snapshot.previous_snapshot_id = [some "s0"] := by
  decide

/-- C9, counterexample. Exhausting the three driver attempts does not
yield a distinct ResourceUnavailable error: get_driver re-raises the last
underlying exception verbatim, so two different underlying failures
surface as two different errors rather than one distinguished value. -/
theorem driver_exhaustion_error_not_distinct :
    (get_driver (Except.error "boom") (Except.error "boom")
        (Except.error "boom")).1 = Except.error "boom"
    ∧ (get_driver (Except.error "crash") (Except.error "crash")
        (Except.error "crash")).1 = Except.error "crash"
    ∧ (Except.error "boom" : Except String Driver) ≠ Except.error "crash" := by
  decide

/-- C4, counterexample. For a text longer than the cap, the returned
content_hash is the digest of the full extracted text, not of the
truncated content field: instantiating the digest with a deterministic
stand-in separates the two on an explicit input. -/
theorem long_text_hash_differs_from_content_hash :
    c4extract.content_hash ≠ c4extract.content.map lengthParityHash := by
  have h1 : c4extract.content_hash = some "odd" := by
    show some (lengthParityHash longText) = some "odd"
    have hlen : longText.data.length = 10001 := by
      show (List.replicate 10001 'a').length = 10001
      rw [List.length_replicate]
    simp [lengthParityHash, hlen]
  have h2 : c4extract.content.map lengthParityHash = some "even" := by
    show some (lengthParityHash (pyTruncate longText 10000)) = some "even"
    have hlen : (pyTruncate longText 10000).data.length = 10000 := by
      show ((List.replicate 10001 'a').take 10000).length = 10000
      rw [List.length_take, List.length_replicate]
      norm_num
    simp [lengthParityHash, hlen]
  rw [h1, h2]
  decide

/-- C4, amended. The extraction truncates the content field to 10,000
characters but hashes the full untruncated text; hence the returned hash
equals a hash of the returned content field when the extracted text is
within the cap. -/
theorem website_extraction_hashes_full_text :
    ∀ (md5 : String → String) (title text : String),
      (extract_website_content md5 title text).content
          = some (pyTruncate text 10000)
      ∧ (extract_website_content md5 title text).content_hash
          = some (md5 text)
      ∧ (text.data.length ≤ 10000 →
          (extract_website_content md5 title text).content_hash
            = some (md5
                ((extract_website_content md5 title text).content.getD ""))) := by
  intro md5 title text
  refine ⟨rfl, rfl, fun h => ?_⟩
  have htr : pyTruncate text 10000 = text := by
    unfold pyTruncate
    rw [List.take_of_length_le h]
  simp [extract_website_content, htr]

/-- Closed instance of the amended C4 theorem at a short text. -/
theorem website_extraction_hashes_full_text_witness :
    ("ab".data.length ≤ 10000)
    ∧ (extract_website_content lengthParityHash "t" "ab").content_hash
        = some (lengthParityHash
            ((extract_website_content lengthParityHash "t" "ab").content.getD "")) :=
  ⟨by decide,
   (website_extraction_hashes_full_text lengthParityHash "t" "ab").2.2 (by decide)⟩

/-- C9, amended. The driver manager makes at most three attempts with a
fixed 2-second backoff between them, a successful attempt short-circuits,
exhausting the attempts re-raises the last underlying error rather than a
distinct error value, and scrape_profile surfaces any such failure to its
caller as an error dict, never an exception. -/
theorem driver_retry_bounded_and_error_surfaced :
    (∀ e1 e2 e3 : String,
        get_driver (Except.error e1) (Except.error e2) (Except.error e3)
          = (Except.error e3, [2, 2]))
    ∧ (∀ (d : Driver) (o2 o3 : Except String Driver),
        get_driver (Except.ok d) o2 o3 = (Except.ok d, []))
    ∧ (∀ (e1 : String) (d : Driver) (o3 : Except String Driver),
        get_driver (Except.error e1) (Except.ok d) o3 = (Except.ok d, [2]))
    ∧ (∀ (e1 e2 : String) (d : Driver),
        get_driver (Except.error e1) (Except.error e2) (Except.ok d)
          = (Except.ok d, [2, 2]))
    ∧ (∀ (e1 e2 e3 : String) (f : Driver → Except String String),
        (get_driver (Except.error e1) (Except.error e2)
            (Except.error e3)).1.bind f = Except.error e3)
    ∧ (∀ (md5 : String → String) (a1 e url : String),
        scrape_profile md5 (Except.error a1) (Except.error e) url
          = { title := none, content := some "", content_hash := some "",
              error := some ("LinkedIn profile scraping failed: " ++ e) }) := by
  refine ⟨fun e1 e2 e3 => rfl, fun d o2 o3 => rfl, fun e1 d o3 => rfl,
    fun e1 e2 d => rfl, fun e1 e2 e3 f => rfl, fun md5 a1 e url => rfl⟩

/-- The due check holds exactly when last_checked is null or the elapsed
time reaches the interval. -/
theorem isDue_iff (now : Int) (t : Target) :
    isDue now t = true ↔
      (t.last_checked = none ∨
        ∃ lc, t.last_checked = some lc ∧ t.check_frequency ≤ now - lc) := by
  unfold isDue
  cases h : t.last_checked with
  | none => simp
  | some lc => simp [h]

/-- C6. The periodic scheduler selects exactly the active targets that
are due: membership in the selection is equivalent to being an active
listed target with a null last_checked or an elapsed time of at least the
interval; the concrete 61s/30s/inactive examples behave as stated, and an
inactive target is never selected whatever its last_checked. -/
theorem scheduler_selects_exactly_due_active_targets :
    (∀ (now : Int) (ts : List Target) (t : Target),
        t ∈ check_all_targets now ts ↔
          t ∈ ts ∧ t.is_active = true ∧
            (t.last_checked = none ∨
              ∃ lc, t.last_checked = some lc ∧ t.check_frequency ≤ now - lc))
    ∧ check_all_targets 100 [targetA, targetB, targetC] = [targetA]
    ∧ (∀ (now : Int) (lc : Option Int),
        check_all_targets now [{ targetC with last_checked := lc }] = []) := by
  refine ⟨?_, by decide, ?_⟩
  · intro now ts t
    simp only [check_all_targets, List.mem_filter]
    rw [isDue_iff]
    tauto
  · intro now lc
    simp [check_all_targets, targetC, websiteTarget, List.filter]

/-- A None error key is falsy. -/
theorem pyTruthyStr_none : pyTruthyStr none = false := by decide

/-- A non-empty string value is truthy. -/
theorem pyTruthyStr_some_ne {h : String} (hh : h ≠ "") :
    pyTruthyStr (some h) = true := by
  have hf : h.isEmpty = false := by
    rcases hbe : h.isEmpty with _ | _
    · rfl
    · exact absurd ((String.isEmpty_iff h).mp hbe) hh
  simp [pyTruthyStr, hf]

/-- A dict carrying a content_hash key is non-empty. -/
theorem isEmpty_false_of_hash {d : ScrapedData} {h : String}
    (hch : d.content_hash = some h) : d.isEmpty = false := by
  simp [ScrapedData.isEmpty, hch]

/-- The notify decision of a graph run is the decision on its final
state. -/
theorem runGraph_snd (t : Target) (u : User)
    (f : Except String ScrapedData) (sg : Except String (Option Snapshot))
    (pc : Except String AIAnalysis) (pIns : Except String AIInsights) :
    (runGraph t u f sg pc pIns).2
      = notifyDecision (runGraph t u f sg pc pIns).1 := rfl

/-- The graph state of a first-seen run: no previous hash and a clean
fetch leave has_changes false, set the initial-snapshot summary and route
to the insights extraction, whatever the provider outcomes. -/
theorem runGraph_first_seen (t : Target) (u : User) (d : ScrapedData)
    (sg : Except String (Option Snapshot)) (pc : Except String AIAnalysis)
    (pIns : Except String AIInsights)
    (hl : t.last_content_hash = none) (he : d.error = none)
    (hne : d.isEmpty = false) :
    (runGraph t u (Except.ok d) sg pc pIns).1
      = { target := t, scraped_data := d, has_changes := false,
          change_summary := "Initial snapshot - getting AI insights",
          ai_analysis := AIAnalysis.empty,
          ai_insights := extract_profile_insights pIns t.target_type,
          user := u, error := none } := by
  unfold runGraph scrapeNode analyzeNode aiAnalysisNode
  simp [hl, he, hne, pyTruthyStr_none]

/-- The graph state of an unchanged run: equal hashes and a clean fetch
leave has_changes false, set the no-changes summary and route to the
insights extraction. -/
theorem runGraph_unchanged (t : Target) (u : User) (d : ScrapedData)
    (sg : Except String (Option Snapshot)) (pc : Except String AIAnalysis)
    (pIns : Except String AIInsights) (h : String)
    (hl : t.last_content_hash = some h) (hch : d.content_hash = some h)
    (he : d.error = none) :
    (runGraph t u (Except.ok d) sg pc pIns).1
      = { target := t, scraped_data := d, has_changes := false,
          change_summary := "No changes detected",
          ai_analysis := AIAnalysis.empty,
          ai_insights := extract_profile_insights pIns t.target_type,
          user := u, error := none } := by
  unfold runGraph scrapeNode analyzeNode aiAnalysisNode
  simp [hl, hch, he, isEmpty_false_of_hash hch, pyTruthyStr_none]

/-- The graph state of a changed run whose snapshot read succeeds: the
analyzer is consulted and may override has_changes and the summary. -/
theorem runGraph_changed (t : Target) (u : User) (d : ScrapedData)
    (prev : Option Snapshot) (pc : Except String AIAnalysis)
    (pIns : Except String AIInsights) (h : String)
    (hl : t.last_content_hash = some h) (hh : h ≠ "")
    (he : d.error = none) (hne : d.isEmpty = false)
    (hch : d.content_hash ≠ some h) :
    (runGraph t u (Except.ok d) (Except.ok prev) pc pIns).1
      = { target := t, scraped_data := d,
          has_changes :=
            (analyze_changes pc t.target_type).has_changes.getD true,
          change_summary :=
            (analyze_changes pc t.target_type).change_summary.getD
              "Content changes detected",
          ai_analysis := analyze_changes pc t.target_type,
          ai_insights := AIInsights.empty,
          user := u, error := none } := by
  unfold runGraph scrapeNode analyzeNode aiAnalysisNode
  cases hb : pyTruthyStr t.latest_snapshot_id with
  | false => simp [hl, hch, he, hne, pyTruthyStr_none, pyTruthyStr_some_ne hh, hb]
  | true => simp [hl, hch, he, hne, pyTruthyStr_none, pyTruthyStr_some_ne hh, hb]

/-- The analyzer wrapper on a failed provider call yields the degraded
fallback fields on both dispatch branches. -/
theorem analyze_changes_error (e ty : String) :
    (analyze_changes (Except.error e) ty).has_changes = some false
    ∧ (analyze_changes (Except.error e) ty).importance_score = some 1
    ∧ (analyze_changes (Except.error e) ty).alert_priority = some "low" := by
  refine ⟨?_, ?_, ?_⟩ <;> (unfold analyze_changes; split <;> rfl)

/-- C7. A target with no stored hash classifies first_seen on a clean
fetch; whatever the provider outcomes the run never flags a change, the
change store is untouched, and exactly one snapshot is written when and
only when the target type is session-backed. -/
theorem first_fetch_first_seen_one_snapshot_no_change :
    ∀ (t : Target) (d : ScrapedData) (userOpt : Option User)
      (sg : Except String (Option Snapshot)) (pc : Except String AIAnalysis)
      (pIns : Except String AIInsights) (db : DB) (now : Int)
      (freshId : String),
      t.last_content_hash = none → d.error = none → d.isEmpty = false →
      classify t d.error d = Classification.first_seen
      ∧ (monitor_target t userOpt (Except.ok d) sg pc pIns db now
          freshId).state.has_changes = false
      ∧ (monitor_target t userOpt (Except.ok d) sg pc pIns db now
          freshId).db.changes = db.changes
      ∧ (monitor_target t userOpt (Except.ok d) sg pc pIns db now
          freshId).db.snapshots.length
          = db.snapshots.length
            + (if isSessionBacked t.target_type then 1 else 0) := by
  intro t d userOpt sg pc pIns db now freshId hl he hne
  have hst := runGraph_first_seen t (userOpt.getD placeholderUser) d sg pc
    pIns hl he hne
  have hcls : classify t d.error d = Classification.first_seen := by
    simp [classify, he, hne, hl, pyTruthyStr_none]
  refine ⟨hcls, ?_, ?_, ?_⟩ <;>
    by_cases hsb : isSessionBacked t.target_type <;>
      simp [monitor_target, hst, hne, hsb]

/-- Closed instance of the C7 theorem on a session-backed target with no
stored hash. -/
theorem first_fetch_first_seen_one_snapshot_no_change_witness :
    (monitor_target { linkedinTarget with last_content_hash := none }
        (some sampleUser) (Except.ok unchangedFetch) (Except.ok none)
        (Except.error "x") (Except.error "x") DB.empty 100
        "s1").db.snapshots.length
      = DB.empty.snapshots.length
        + (if isSessionBacked
              ({ linkedinTarget with
                  last_content_hash := none } : Target).target_type
           then 1 else 0) :=
  (first_fetch_first_seen_one_snapshot_no_change
      { linkedinTarget with last_content_hash := none } unchangedFetch
      (some sampleUser) (Except.ok none) (Except.error "x")
      (Except.error "x") DB.empty 100 "s1" rfl rfl (by decide)).2.2.2

/-- C8. When the analyzer provider call fails on a changed run, the
failure is caught and replaced by the degraded fallback (no change,
importance 1, low priority), the run's has_changes is overridden to
false, and the fetch/hash/last_checked update still completes. -/
theorem analyzer_failure_degrades_and_run_completes :
    ∀ (t : Target) (d : ScrapedData) (userOpt : Option User)
      (prev : Option Snapshot) (e : String) (pIns : Except String AIInsights)
      (db : DB) (now : Int) (freshId : String) (h : String),
      t.last_content_hash = some h → h ≠ "" → d.error = none →
      d.isEmpty = false → d.content_hash ≠ some h →
      (monitor_target t userOpt (Except.ok d) (Except.ok prev)
          (Except.error e) pIns db now
          freshId).state.ai_analysis.has_changes = some false
      ∧ (monitor_target t userOpt (Except.ok d) (Except.ok prev)
          (Except.error e) pIns db now
          freshId).state.ai_analysis.importance_score = some 1
      ∧ (monitor_target t userOpt (Except.ok d) (Except.ok prev)
          (Except.error e) pIns db now
          freshId).state.ai_analysis.alert_priority = some "low"
      ∧ (monitor_target t userOpt (Except.ok d) (Except.ok prev)
          (Except.error e) pIns db now
          freshId).state.has_changes = false
      ∧ (monitor_target t userOpt (Except.ok d) (Except.ok prev)
          (Except.error e) pIns db now
          freshId).target.last_checked = some now
      ∧ (monitor_target t userOpt (Except.ok d) (Except.ok prev)
          (Except.error e) pIns db now
          freshId).target.last_content_hash = d.content_hash := by
  intro t d userOpt prev e pIns db now freshId h hl hh he hne hch
  have hst := runGraph_changed t (userOpt.getD placeholderUser) d prev
    (Except.error e) pIns h hl hh he hne hch
  obtain ⟨hf1, hf2, hf3⟩ := analyze_changes_error e t.target_type
  refine ⟨?_, ?_, ?_, ?_, ?_, ?_⟩ <;>
    by_cases hsb : isSessionBacked t.target_type <;>
      simp [monitor_target, hst, hne, hsb, hf1, hf2, hf3]

/-- Closed instance of the C8 theorem on a changed website run with a
failing provider. -/
theorem analyzer_failure_degrades_and_run_completes_witness :
    (monitor_target websiteTarget (some sampleUser) (Except.ok changedFetch)
        (Except.ok none) (Except.error "Gemini quota exceeded")
        (Except.error "x") DB.empty 100
        "s1").state.ai_analysis.has_changes = some false :=
  (analyzer_failure_degrades_and_run_completes websiteTarget changedFetch
      (some sampleUser) none "Gemini quota exceeded" (Except.error "x")
      DB.empty 100 "s1" "old" rfl (by decide) rfl (by decide) (by decide)).1

/-- Re-assigning last_content_hash to its current value while setting
last_checked changes only last_checked. -/
theorem target_update_same_hash (t : Target) (v : Option String) (now : Int)
    (hv : t.last_content_hash = v) :
    ({ t with last_content_hash := v, last_checked := some now } : Target)
      = { t with last_checked := some now } := by
  cases t
  simp_all

/-- One unchanged cycle on a non-session-backed target maps the target
and stores to the target with only last_checked advanced. -/
theorem unchanged_website_cycle (userOpt : Option User) (d : ScrapedData)
    (sg : Except String (Option Snapshot)) (pc : Except String AIAnalysis)
    (pIns : Except String AIInsights) (fresh : String) (t : Target)
    (db : DB) (now : Int) (h : String)
    (hsb : isSessionBacked t.target_type = false)
    (hl : t.last_content_hash = some h) (hch : d.content_hash = some h)
    (he : d.error = none) :
    runCycle userOpt (Except.ok d) sg pc pIns fresh (t, db) now
      = ({ t with last_checked := some now }, db) := by
  have hst := runGraph_unchanged t (userOpt.getD placeholderUser) d sg pc
    pIns h hl hch he
  have hne := isEmpty_false_of_hash hch
  have hupd := target_update_same_hash t (some h) now hl
  simp [runCycle, monitor_target, hst, hne, hsb, hch, hupd]

/-- Iterating unchanged cycles on a non-session-backed target leaves the
stores untouched and carries last_checked through the cycle times. -/
theorem unchanged_website_cycles_aux (userOpt : Option User)
    (d : ScrapedData) (sg : Except String (Option Snapshot))
    (pc : Except String AIAnalysis) (pIns : Except String AIInsights)
    (fresh : String) (h : String) (hch : d.content_hash = some h)
    (he : d.error = none) :
    ∀ (times : List Int) (t : Target) (db : DB),
      isSessionBacked t.target_type = false →
      t.last_content_hash = some h →
      runCycles userOpt (Except.ok d) sg pc pIns fresh (t, db) times
        = ({ t with last_checked := finalChecked t.last_checked times },
           db) := by
  intro times
  induction times with
  | nil => intro t db hsb hl; rfl
  | cons now rest ih =>
      intro t db hsb hl
      show runCycles userOpt (Except.ok d) sg pc pIns fresh
          (runCycle userOpt (Except.ok d) sg pc pIns fresh (t, db) now)
          rest = _
      rw [unchanged_website_cycle userOpt d sg pc pIns fresh t db now h hsb
        hl hch he]
      rw [ih { t with last_checked := some now } db hsb hl]
      rfl

/-- C1, amended. An UNCHANGED run on a non-session-backed target only
advances last_checked: the hash is re-assigned its own value, no Snapshot
or Change record is written, and no email of either kind is attempted;
hence N consecutive unchanged cycles leave the stores untouched while
last_checked advances through the N cycle times. (On session-backed
targets a Snapshot is written on every run with scraped data, which is
the counterexample to the claim as stated.) -/
theorem unchanged_cycles_website_only_advance_last_checked :
    ∀ (userOpt : Option User) (d : ScrapedData)
      (sg : Except String (Option Snapshot)) (pc : Except String AIAnalysis)
      (pIns : Except String AIInsights) (fresh : String) (t : Target)
      (db : DB) (h : String),
      isSessionBacked t.target_type = false →
      t.last_content_hash = some h → d.content_hash = some h →
      d.error = none →
      classify t d.error d = Classification.unchanged
      ∧ (∀ now, runCycle userOpt (Except.ok d) sg pc pIns fresh (t, db) now
          = ({ t with last_checked := some now }, db))
      ∧ (runGraph t (userOpt.getD placeholderUser) (Except.ok d) sg pc
          pIns).2
          = { change_email_attempted := false,
              insights_email_attempted := false }
      ∧ (∀ times,
          runCycles userOpt (Except.ok d) sg pc pIns fresh (t, db) times
            = ({ t with last_checked := finalChecked t.last_checked times },
               db)) := by
  intro userOpt d sg pc pIns fresh t db h hsb hl hch he
  have hne := isEmpty_false_of_hash hch
  have hst := runGraph_unchanged t (userOpt.getD placeholderUser) d sg pc
    pIns h hl hch he
  have hext : extract_profile_insights pIns t.target_type
      = AIInsights.empty := by
    unfold extract_profile_insights
    simp [hsb]
  refine ⟨?_, ?_, ?_, ?_⟩
  · simp [classify, he, hch, hl, hne, pyTruthyStr_none]
  · intro now
    exact unchanged_website_cycle userOpt d sg pc pIns fresh t db now h hsb
      hl hch he
  · rw [runGraph_snd, hst]
    simp [notifyDecision, hext, AIInsights.isEmpty, AIInsights.empty]
  · intro times
    exact unchanged_website_cycles_aux userOpt d sg pc pIns fresh h hch he
      times t db hsb hl

/-- Closed instance of the amended C1 theorem: two unchanged cycles on a
website target leave the stores untouched and advance last_checked to the
second cycle time. -/
theorem unchanged_cycles_website_witness :
    runCycles (some sampleUser)
        (Except.ok { unchangedFetch with content_hash := some "old" })
        (Except.ok none) (Except.error "x") (Except.error "x") "s1"
        (websiteTarget, DB.empty) [100, 200]
      = ({ websiteTarget with
            last_checked :=
              finalChecked websiteTarget.last_checked [100, 200] },
         DB.empty) :=
  (unchanged_cycles_website_only_advance_last_checked (some sampleUser)
      { unchangedFetch with content_hash := some "old" } (Except.ok none)
      (Except.error "x") (Except.error "x") "s1" websiteTarget DB.empty
      "old" (by decide) (by decide) (by decide) (by decide)).2.2.2
      [100, 200]

/-- The analyzer wrapper on a successful provider call returns the parsed
response on both dispatch branches. -/
theorem analyze_changes_ok (ai : AIAnalysis) (ty : String) :
    analyze_changes (Except.ok ai) ty = ai := by
  unfold analyze_changes
  split <;> rfl

/-- A dict whose has_changes key is present is non-empty. -/
theorem aiAnalysis_isEmpty_false {ai : AIAnalysis} {b : Bool}
    (hhc : ai.has_changes = some b) : ai.isEmpty = false := by
  simp [AIAnalysis.isEmpty, hhc]

/-- C2, amended. On a run classified CHANGED with the analyzer reporting
has_changes true and an importance score below the recipient's threshold,
no change email is attempted and a Change record is written, with
notified hardcoded to true; and a change email is attempted only when
email notifications are enabled, change emails are enabled, and the score
reaches the threshold. -/
theorem low_importance_change_suppresses_email :
    ∀ (t : Target) (d : ScrapedData) (user : User) (prev : Option Snapshot)
      (ai : AIAnalysis) (pIns : Except String AIInsights) (db : DB)
      (now : Int) (freshId : String) (h : String),
      t.last_content_hash = some h → h ≠ "" → d.error = none →
      d.isEmpty = false → d.content_hash ≠ some h →
      ai.has_changes = some true →
      ai.importance_score.getD 0
          < user.preferences.min_importance_score.getD 5 →
      ((monitor_target t (some user) (Except.ok d) (Except.ok prev)
          (Except.ok ai) pIns db now freshId).notify.change_email_attempted
          = false
       ∧ ∃ rec : ChangeDetection,
           (monitor_target t (some user) (Except.ok d) (Except.ok prev)
               (Except.ok ai) pIns db now freshId).db.changes
             = db.changes ++ [rec]
           ∧ rec.notified = true)
      ∧ (∀ s : MonitoringState,
          (notifyDecision s).change_email_attempted = true →
          s.user.preferences.email_notifications.getD true = true
          ∧ s.user.preferences.email_on_changes.getD true = true
          ∧ s.user.preferences.min_importance_score.getD 5
              ≤ s.ai_analysis.importance_score.getD 0) := by
  intro t d user prev ai pIns db now freshId h hl hh he hne hch hhc hlt
  have hst := runGraph_changed t ((some user).getD placeholderUser) d prev
    (Except.ok ai) pIns h hl hh he hne hch
  rw [analyze_changes_ok, Option.getD_some] at hst
  have haiE : ai.isEmpty = false := aiAnalysis_isEmpty_false hhc
  have hnotle : ¬(user.preferences.min_importance_score.getD 5
      ≤ ai.importance_score.getD 0) := not_le.mpr hlt
  refine ⟨⟨?_, ?_⟩, ?_⟩
  · by_cases hsb : isSessionBacked t.target_type <;>
      simp [monitor_target, runGraph_snd, hst, hne, hsb, notifyDecision,
        hhc, haiE, hnotle]
  · by_cases hsb : isSessionBacked t.target_type
    · refine Exists.intro
        ({ target_id := t.id, user_id := t.user_id,
           change_type := "content_update",
           summary := ai.change_summary.getD "Content changes detected",
           before_snapshot := some freshId, after_snapshot := some freshId,
           notified := true } : ChangeDetection) ⟨?_, rfl⟩
      simp [monitor_target, runGraph_snd, hst, hne, hsb, hhc]
    · refine Exists.intro
        ({ target_id := t.id, user_id := t.user_id,
           change_type := "content_update",
           summary := ai.change_summary.getD "Content changes detected",
           before_snapshot := t.latest_snapshot_id, after_snapshot := none,
           notified := true } : ChangeDetection) ⟨?_, rfl⟩
      simp [monitor_target, runGraph_snd, hst, hne, hsb, hhc]
  · intro s hs
    simp only [notifyDecision] at hs
    split at hs
    · simp only [Bool.and_eq_true, decide_eq_true_eq] at hs
      exact ⟨hs.1.1, hs.1.2, hs.2⟩
    · split at hs
      · simp at hs
      · split at hs
        · simp at hs
        · simp at hs

/-- Closed instance of the amended C2 theorem. -/
theorem low_importance_change_suppresses_email_witness :
    (monitor_target websiteTarget (some sampleUser) (Except.ok changedFetch)
        (Except.ok none) (Except.ok lowImportanceAnalysis)
        (Except.error "x") DB.empty 100
        "s1").notify.change_email_attempted = false :=
  ((low_importance_change_suppresses_email websiteTarget changedFetch
      sampleUser none lowImportanceAnalysis (Except.error "x") DB.empty 100
      "s1" "old" rfl (by decide) rfl (by decide) (by decide) rfl
      (by decide)).1).1

/-- The scrape node never touches the user field. -/
theorem scrapeNode_user (f : Except String ScrapedData)
    (s : MonitoringState) : (scrapeNode f s).user = s.user := by
  cases f <;> rfl

/-- The analysis node never touches the user field. -/
theorem analyzeNode_user (s : MonitoringState) :
    (analyzeNode s).user = s.user := by
  unfold analyzeNode
  split
  · rfl
  · split
    · rfl
    · split <;> rfl

/-- The AI node never touches the user field. -/
theorem aiAnalysisNode_user (sg : Except String (Option Snapshot))
    (pc : Except String AIAnalysis) (pIns : Except String AIInsights)
    (s : MonitoringState) : (aiAnalysisNode sg pc pIns s).user = s.user := by
  unfold aiAnalysisNode
  split
  · rfl
  · split
    · split <;> rfl
    · rfl

/-- The graph run carries the given user through unchanged. -/
theorem runGraph_user (t : Target) (u : User)
    (f : Except String ScrapedData) (sg : Except String (Option Snapshot))
    (pc : Except String AIAnalysis) (pIns : Except String AIInsights) :
    (runGraph t u f sg pc pIns).1.user = u := by
  simp only [runGraph]
  rw [aiAnalysisNode_user, analyzeNode_user, scrapeNode_user]

/-- The state a run reports is the final graph state, in every branch of
the persistence code. -/
theorem monitor_target_state (t : Target) (userOpt : Option User)
    (f : Except String ScrapedData) (sg : Except String (Option Snapshot))
    (pc : Except String AIAnalysis) (pIns : Except String AIInsights)
    (db : DB) (now : Int) (freshId : String) :
    (monitor_target t userOpt f sg pc pIns db now freshId).state
      = (runGraph t (userOpt.getD placeholderUser) f sg pc pIns).1 := by
  simp only [monitor_target]
  split
  · rfl
  · split <;> rfl

/-- C10. Absent preference keys default to permissive values: the notify
decision with an empty preferences dict equals the decision with every
key set to its literal default (enabled, enabled, enabled, threshold 5);
with empty preferences a change email is attempted exactly when the
importance score reaches 5 and an insights email is always attempted on
the insights branch; and the placeholder user substituted when the owner
lookup fails carries the empty preferences dict into the run. -/
theorem empty_preferences_default_permissive :
    (∀ s : MonitoringState, s.user.preferences = Preferences.empty →
        notifyDecision s
          = notifyDecision
              { s with user :=
                  { s.user with
                      preferences := explicitDefaultPreferences } })
    ∧ (∀ s : MonitoringState, s.user.preferences = Preferences.empty →
        s.has_changes = true → s.ai_analysis.isEmpty = false →
        (notifyDecision s).change_email_attempted
          = decide (5 ≤ s.ai_analysis.importance_score.getD 0))
    ∧ (∀ s : MonitoringState, s.user.preferences = Preferences.empty →
        s.has_changes = false → s.ai_insights.isEmpty = false →
        (notifyDecision s).insights_email_attempted = true)
    ∧ placeholderUser.preferences = Preferences.empty
    ∧ (∀ (t : Target) (f : Except String ScrapedData)
        (sg : Except String (Option Snapshot))
        (pc : Except String AIAnalysis) (pIns : Except String AIInsights)
        (db : DB) (now : Int) (freshId : String),
        (monitor_target t none f sg pc pIns db now freshId).state.user
          = placeholderUser) := by
  refine ⟨?_, ?_, ?_, rfl, ?_⟩
  · intro s hp
    simp [notifyDecision, hp, Preferences.empty, explicitDefaultPreferences]
  · intro s hp h1 h2
    simp [notifyDecision, hp, h1, h2, Preferences.empty]
  · intro s hp h1 h2
    simp [notifyDecision, hp, h1, h2, Preferences.empty]
  · intro t f sg pc pIns db now freshId
    rw [monitor_target_state, runGraph_user]
    rfl

/-- Closed instance of the C10 theorem: with empty preferences, a change
of importance 3 is below the default threshold and the decision bit
equals the threshold test. -/
theorem empty_preferences_default_permissive_witness :
    (notifyDecision
        { target := websiteTarget, scraped_data := changedFetch,
          has_changes := true, change_summary := "x",
          ai_analysis := lowImportanceAnalysis,
          ai_insights := AIInsights.empty, user := sampleUser,
          error := none }).change_email_attempted
      = decide
          (5 ≤ ({ target := websiteTarget, scraped_data := changedFetch,
                  has_changes := true, change_summary := "x",
                  ai_analysis := lowImportanceAnalysis,
                  ai_insights := AIInsights.empty, user := sampleUser,
                  error :=
                    none } : MonitoringState).ai_analysis.importance_score.getD
              0) :=
  empty_preferences_default_permissive.2.1
    { target := websiteTarget, scraped_data := changedFetch,
      has_changes := true, change_summary := "x",
      ai_analysis := lowImportanceAnalysis, ai_insights := AIInsights.empty,
      user := sampleUser, error := none } rfl rfl (by decide)
